import Mathlib

/-!
Verification of the request lifecycle and announce-scheduling engine of the
`grenache-nodejs-link` client (`src/index.js`, class `Link`).

The JavaScript source is shallowly embedded: JS values are modelled by the
inductive `JSVal` (with `null` standing for both `null` and `undefined`),
truthiness by `JSVal.truthy`, the `_reqs` Map and the per-type LRU cache
region by association lists, and each method by a state-passing function that
returns the successor state together with the observable effect (callback
invocation, network exchange, thrown exception).  The external `lru` and
`async` packages, which are collaborators and not part of this repository,
are modelled from the spec's contracts for the Result Cache (§4.2) and the
Retry Executor (§4.3).
-/

namespace Link

/-- A JavaScript value as it flows through the client: `null` collapses
`null`/`undefined`, and objects other than arrays do not occur in the
positions the claims talk about. -/
inductive JSVal where
  | null : JSVal
  | bool (b : Bool) : JSVal
  | num (n : Int) : JSVal
  | str (s : String) : JSVal
  | arr (xs : List JSVal) : JSVal

/-- JavaScript truthiness: `null`/`undefined`, `false`, `0` and the empty
string are falsy; every array (including the empty array) is truthy. -/
def JSVal.truthy : JSVal → Bool
  | .null => false
  | .bool b => b
  | .num n => n != 0
  | .str s => s ≠ ""
  | .arr _ => true

/-- String escaping applied by `JSON.stringify` inside string literals
(quotes and backslashes; control characters do not occur in the payloads
modelled here). -/
def jsonEscape (s : String) : String :=
  s.foldl (fun acc c =>
    if c = '"' ∨ c = '\\' then acc ++ (String.singleton '\\').push c
    else acc.push c) ""

mutual
/-- The `JSON.stringify` serialisation used by `getRequestHash`. -/
def jsonStringify : JSVal → String
  | .null => "null"
  | .bool b => if b then "true" else "false"
  | .num n => toString n
  | .str s => (String.singleton '"') ++ jsonEscape s ++ (String.singleton '"')
  | .arr xs => "[" ++ jsonStringifyList xs ++ "]"

/-- Comma-separated serialisation of an array's elements. -/
def jsonStringifyList : List JSVal → String
  | [] => ""
  | [x] => jsonStringify x
  | x :: y :: xs => jsonStringify x ++ "," ++ jsonStringifyList (y :: xs)
end

/-- A JavaScript `Error` as the client builds them: a message plus an
optional `code` property (a string such as `ETIMEDOUT` or a numeric HTTP
status). -/
structure JsErr where
  message : String
  code : JSVal

/-- Embeds `getRequestHash(type, payload)`: the cache fingerprint
`type + ':' + JSON.stringify(payload)`. -/
def getRequestHash (type : String) (payload : JSVal) : String :=
  type ++ ":" ++ jsonStringify payload

/-- One entry of the `lookup` LRU cache region: fingerprint, stored value and
the time of the write (the `modified` field of the external `lru` package). -/
structure CacheEntry where
  key : String
  val : JSVal
  modified : Nat

/-- Modelled from the spec: `get` of the Result Cache region (the external
`lru` package configured with `lruMaxAgeLookup`); an entry strictly older
than the age bound is treated as absent (§3: "entries older than the age
bound are treated as absent").  Capacity eviction (`lruMaxSizeLookup`) is
not exercised by any claim and is not modelled. -/
def lruGet (cache : List CacheEntry) (now maxAge : Nat) (k : String) : Option JSVal :=
  match cache.find? (fun e => e.key = k) with
  | some e => if now - e.modified > maxAge then none else some e.val
  | none => none

/-- Modelled from the spec: `set` of the Result Cache region; stores the
value under the fingerprint with the current time as its write time,
replacing any previous entry for the same fingerprint. -/
def lruSet (cache : List CacheEntry) (now : Nat) (k : String) (v : JSVal) : List CacheEntry :=
  ⟨k, v, now⟩ :: cache.filter (fun e => e.key ≠ k)

/-- A Pending Request as built by `newRequest`: correlation id, operation
type, payload, and the precomputed cache fingerprint `qhash`.  The `opts`
and `_ts` fields play no role in any claim; the callback is identified by
the request's `rid` in the emitted `CbCall` events. -/
structure PendingReq where
  rid : String
  type : String
  payload : JSVal
  qhash : String

/-- The mutable state of a `Link` instance that the request-lifecycle claims
range over: the `_reqs` registry and the `lookup` cache region (`init`
creates a cache region exactly for the type `lookup`). -/
structure LinkSt where
  reqs : List PendingReq
  lookupCache : List CacheEntry

/-- An invocation of a pending request's completion callback, identified by
the request's correlation id, with the error and data it receives. -/
structure CbCall where
  rid : String
  err : Option JsErr
  data : JSVal

/-- Looks up the registry by correlation id (`this._reqs.get(rid)`). -/
def getRequest (st : LinkSt) (rid : String) : Option PendingReq :=
  st.reqs.find? (fun r => r.rid = rid)

/-- Embeds `handleReply(rid, err, data)`.  Returns the successor state and
the callback invocation it performs, if any: an unknown id is a silent
no-op; otherwise the cache for the request's type (a region exists only for
`lookup`) is written when `!err && data` holds in the JS-truthiness sense,
the request is deleted from the registry, and only then its callback fires.
`now` is the clock value the cache write records. -/
def handleReply (st : LinkSt) (now : Nat) (rid : String) (err : Option JsErr)
    (data : JSVal) : LinkSt × Option CbCall :=
  match getRequest st rid with
  | none => (st, none)
  | some req =>
      let cache' :=
        if err.isNone ∧ data.truthy ∧ req.type = "lookup" then
          lruSet st.lookupCache now req.qhash data
        else st.lookupCache
      ({ reqs := st.reqs.filter (fun r => r.rid ≠ rid), lookupCache := cache' },
       some ⟨req.rid, err, data⟩)

/-- The observable effect of one `_request` attempt: either the callback is
invoked immediately with a cached value and nothing else happens, or a fresh
Pending Request is registered and one network exchange (`post`) is sent. -/
inductive ReqOutcome where
  | cachedHit (v : JSVal)
  | posted (rid : String) (qhash : String)

/-- The shared tail of `_request` once the cache has not produced a hit:
`newRequest` + `addRequest` (the registry `Map.set`, which replaces any
entry under the same id) followed by the `post` network exchange. -/
def sendRequest (st : LinkSt) (rid type : String) (payload : JSVal)
    (qhash : String) : LinkSt × ReqOutcome :=
  ({ reqs := ⟨rid, type, payload, qhash⟩ :: st.reqs.filter (fun r => r.rid ≠ rid),
     lookupCache := st.lookupCache },
   .posted rid qhash)

/-- Embeds one `_request(type, payload, opts, cb)` attempt.  `this.cache[type]`
is defined exactly for `type = 'lookup'` (see `init`); on a cache region with
a live, truthy value under the fingerprint the callback fires immediately
(`cb(null, cval)`) with no registration and no network call; otherwise the
attempt registers a Pending Request under the fresh correlation id `freshRid`
and posts it.  `now` is the clock value the cache consults and `maxAge` the
configured `lruMaxAgeLookup`. -/
def underscoreRequest (st : LinkSt) (now maxAge : Nat) (freshRid type : String)
    (payload : JSVal) : LinkSt × ReqOutcome :=
  let qhash := getRequestHash type payload
  if type = "lookup" then
    match lruGet st.lookupCache now maxAge qhash with
    | some cval =>
        if cval.truthy then (st, .cachedHit cval)
        else sendRequest st freshRid type payload qhash
    | none => sendRequest st freshRid type payload qhash
  else sendRequest st freshRid type payload qhash

/-- The transport-level response object of the external `request` package
(only its `statusCode` is consulted). -/
structure HttpRes where
  statusCode : Nat

/-- What the callback wrapped around the transport exchange inside `post`
does: either it invokes `cb` with the given arguments, or evaluating the
handler body throws a synchronous exception. -/
inductive PostOutcome where
  | cb (err : Option JsErr) (res : Option HttpRes) (body : JSVal)
  | thrown (msg : String)

/-- The `/^2..$/` regular-expression test `post` applies to the coerced
`res.statusCode`: the decimal rendering has exactly three characters and
starts with `2`. -/
def status2xx (n : Nat) : Bool :=
  (toString n).length = 3 ∧ (toString n).take 1 = "2"

/-- JavaScript string coercion `String(v)` as `new Error(resData)` applies it
to the response body (arrays join their elements with commas). -/
def jsValToString : JSVal → String
  | .null => "null"
  | .bool b => if b then "true" else "false"
  | .num n => toString n
  | .str s => s
  | .arr xs => String.intercalate "," (xs.map fun v =>
      match v with
      | .null => ""
      | .bool b => if b then "true" else "false"
      | .num n => toString n
      | .str s => s
      | .arr _ => "")

/-- The guard `err && err.code === 'ETIMEDOUT'` of `post`'s response
handler. -/
def errIsTimeout : Option JsErr → Bool
  | some e =>
      match e.code with
      | .str s => s = "ETIMEDOUT"
      | _ => false
  | none => false

/-- Embeds the response handler inside `post(url, data, opts, cb)`.  On a
transport error whose `code` is `ETIMEDOUT` it builds `new Error('ERR_TIMEOUT')`
and assigns `err.code = res.statusCode`: when no response object accompanies
the timeout (the usual shape of a timeout) that property read is on
`undefined` and throws a `TypeError` instead of reaching `cb`.  On a present
non-2xx response it passes `new Error(resData)` annotated with the status;
otherwise it forwards `(err, res, resData)`. -/
def postHandler (err : Option JsErr) (res : Option HttpRes) (resData : JSVal) :
    PostOutcome :=
  if errIsTimeout err then
    match res with
    | none => .thrown "TypeError: Cannot read properties of undefined (reading statusCode)"
    | some r => .cb (some ⟨"ERR_TIMEOUT", .num r.statusCode⟩) none .null
  else
    match res with
    | some r =>
        if status2xx r.statusCode then .cb err res resData
        else .cb (some ⟨jsValToString resData, .num r.statusCode⟩) none .null
    | none => .cb err res resData

/-- Whether an attempt result is a success (used to phrase the retry
contract). -/
def resultIsOk : Except JsErr JSVal → Bool
  | .ok _ => true
  | .error _ => false

/-- Modelled from the spec: the Retry Executor (§4.3) that `request` obtains
from the external `async.retry(times, task, callback)`, specialised to a
sequential model — the attempt with index `i` returns `f i`, and a new
attempt starts only after the previous one has completed.  `retryFrom f i n`
runs up to `n` attempts starting at index `i` and returns the delivered
result together with the number of attempt invocations performed.  `n = 0`
does not arise: `request` passes `_opts.retry || 1`. -/
def retryFrom (f : Nat → Except JsErr JSVal) : Nat → Nat → Except JsErr JSVal × Nat
  | i, 0 => (f i, 1)
  | i, 1 => (f i, 1)
  | i, (n + 2) =>
      match f i with
      | .ok a => (.ok a, 1)
      | .error _ =>
          let p := retryFrom f (i + 1) (n + 1)
          (p.1, p.2 + 1)

/-- Modelled from the spec: `retry(maxAttempts, attemptFn, done)` — the
wrapper `request` places around `_request`. -/
def retry (maxAttempts : Nat) (f : Nat → Except JsErr JSVal) :
    Except JsErr JSVal × Nat :=
  retryFrom f 0 maxAttempts

/-- The array test `_.isArray(res) && res.length` applied by `lookup`'s
reply wrapper: a non-empty JS array. -/
def isNonEmptyArr : JSVal → Bool
  | .arr (_ :: _) => true
  | _ => false

/-- Embeds the reply wrapper `lookup` installs around `request('lookup', …)`:
an error passes through; a success whose data is not a non-empty array
becomes `ERR_GRAPE_LOOKUP_EMPTY`; a non-empty array passes through
unchanged. -/
def lookupHandler (r : Except JsErr JSVal) : Except JsErr JSVal :=
  match r with
  | .error e => .error e
  | .ok res =>
      if isNonEmptyArr res then .ok res
      else .error ⟨"ERR_GRAPE_LOOKUP_EMPTY", .null⟩

/-- The hex rendering of one byte, as `Buffer.prototype.toString('hex')`
produces it (two lowercase hex digits). -/
def byteToHex (b : Nat) : String :=
  let digit := fun (n : Nat) =>
    if n < 10 then String.singleton (Char.ofNat (48 + n))
    else String.singleton (Char.ofNat (87 + n))
  digit ((b / 16) % 16) ++ digit (b % 16)

/-- `Buffer.prototype.toString('hex')` over a byte sequence. -/
def bytesToHex (bs : List Nat) : String :=
  String.join (bs.map byteToHex)

/-- The `data` argument of `putMutable` with the fields the method reads and
writes: `seq` and `v` as JS values, an optional `salt`, and the `k`/`sig`
fields the method assigns in place (absent on entry). -/
structure MutData where
  seq : JSVal
  v : JSVal
  salt : JSVal
  k : Option String
  sig : Option String

/-- The `options.keys` pair handed to `putMutable`; a Buffer, when present,
is a byte sequence (and is always truthy, even when empty). -/
structure KeyPair where
  publicKey : Option (List Nat)
  secretKey : Option (List Nat)

/-- How a `putMutable` call concludes: the callback receives a validation
error; or evaluating `ed.sign` throws a `ReferenceError` (the identifier
`ed` is never bound anywhere in `src/index.js`); or the payload is handed to
`put`.  The last constructor is never produced by the embedded code — it
exists to state what the claims expect. -/
inductive PutMutableOutcome where
  | cbError (msg : String)
  | thrownRefError (msg : String)
  | putCalled (payload : MutData)

/-- Embeds `putMutable(data, opts, cb)` after its `ERR_MISSING_ARGS` throw
(all three arguments are supplied here).  Returns the conclusion together
with the caller's `data` object as the call leaves it: validation failures
return before any mutation; past validation the method assigns
`data.k = publicKey.toString('hex')` in place, computes the bencode encoding
of `(seq, v, [salt])` (whose value is dead — it never reaches a signer), and
then evaluating `ed` raises `ReferenceError: ed is not defined`, so
`data.sig` is never assigned and `put` is never reached. -/
def putMutable (data : MutData) (keys : KeyPair) : PutMutableOutcome × MutData :=
  if ¬ data.seq.truthy then (.cbError "ERR_MISSING_SEQ", data)
  else
    match keys.publicKey, keys.secretKey with
    | some pk, some _ =>
        let data' := { data with k := some (bytesToHex pk) }
        (.thrownRefError "ed is not defined", data')
    | _, _ => (.cbError "ERR_MISSING_KEY", data)

/-- The shared `info` object `startAnnouncing` allocates for a pair: the
monotonic `stopped` flag and the handle of the pending timer (`clearTimeout`
does not null the handle, so `timeout` keeps its value after a stop; whether
the timer is still live is recorded in `AnnSt.timers`). -/
structure AnnInfo where
  stopped : Bool
  timeout : Option Nat
deriving Repr, DecidableEq

/-- The announce-scheduler state.  Because the `reann` closure and the
`_announces` map alias the same mutable `info` object, descriptors live in a
heap addressed by `Nat` references: `announces` maps the identity key
`port + ':' + key` to a reference, `heap` holds the descriptors, `timers`
the ids of live (scheduled, not yet fired, not cancelled) timers, and
`inflight` the references whose announce attempt has been issued but whose
completion handler `reann` has not yet run. -/
structure AnnSt where
  announces : List (String × Nat)
  heap : List (Nat × AnnInfo)
  timers : List Nat
  inflight : List Nat
  nextRef : Nat
  nextTimer : Nat
deriving Repr, DecidableEq

/-- The identity key `port + ':' + key` of an Announce Descriptor. -/
def annId (key port : String) : String := port ++ ":" ++ key

/-- Reads the descriptor a reference aliases. -/
def heapGet (h : List (Nat × AnnInfo)) (r : Nat) : Option AnnInfo :=
  (h.find? (fun p => p.1 = r)).map (fun p => p.2)

/-- Mutates the descriptor a reference aliases (the JS assignment through
either alias). -/
def heapSet (h : List (Nat × AnnInfo)) (r : Nat) (f : AnnInfo → AnnInfo) :
    List (Nat × AnnInfo) :=
  h.map (fun p => if p.1 = r then (p.1, f p.2) else p)

/-- Embeds `startAnnouncing(key, port, opts, cb)`.  A live descriptor under
the identity key makes the call return `false` (`some false`) and leave the
state untouched; otherwise a fresh descriptor (`stopped = false`, no timer)
is allocated, `ann()` synchronously issues the first announce attempt (the
reference joins `inflight`; its completion is `reann`), the descriptor is
stored under the identity key, and the call returns `undefined` (`none`). -/
def startAnnouncing (st : AnnSt) (key port : String) : AnnSt × Option Bool :=
  let id := annId key port
  if (st.announces.find? (fun p => p.1 = id)).isSome then (st, some false)
  else
    let ref := st.nextRef
    ({ st with
        heap := (ref, ⟨false, none⟩) :: st.heap,
        inflight := ref :: st.inflight,
        announces := (id, ref) :: st.announces,
        nextRef := ref + 1 },
     none)

/-- Embeds the completion handler `reann` of an in-flight announce attempt
for the descriptor aliased by `ref` (the first-completion invocation of the
caller's callback is not tracked — no claim mentions it).  The attempt
leaves `inflight`; then, unless `info.stopped` is set, a fresh timer is
allocated (`setTimeout(ann, ms)` with the jittered delay, whose length no
claim constrains) and its handle is stored in `info.timeout`. -/
def reann (st : AnnSt) (ref : Nat) : AnnSt :=
  match heapGet st.heap ref with
  | none => st
  | some info =>
      let st0 := { st with inflight := st.inflight.filter (fun r => r ≠ ref) }
      if info.stopped then st0
      else
        let t := st0.nextTimer
        { st0 with
            timers := t :: st0.timers,
            heap := heapSet st0.heap ref (fun i => { i with timeout := some t }),
            nextTimer := t + 1 }

/-- A pending timer fires: `ann()` runs, issuing the next announce attempt
for its descriptor (the timer leaves the live set and the reference joins
`inflight`). -/
def timerFire (st : AnnSt) (ref t : Nat) : AnnSt :=
  if t ∈ st.timers ∧ heapGet st.heap ref = some ⟨false, some t⟩ then
    { st with
        timers := st.timers.filter (fun u => u ≠ t),
        inflight := ref :: st.inflight }
  else st

/-- Embeds `stopAnnouncing(key, port)`.  An unknown identity key returns
`false` (`some false`) with no side effect; otherwise the descriptor is
removed from the active map, its `stopped` flag is set through the shared
object, its pending timer (if any) is cancelled synchronously
(`clearTimeout(info.timeout)`), and the call returns `undefined` (`none`). -/
def stopAnnouncing (st : AnnSt) (key port : String) : AnnSt × Option Bool :=
  let id := annId key port
  match st.announces.find? (fun p => p.1 = id) with
  | none => (st, some false)
  | some p =>
      let ref := p.2
      let tkill := match heapGet st.heap ref with
        | some i => i.timeout
        | none => none
      ({ st with
          announces := st.announces.filter (fun q => q.1 ≠ id),
          heap := heapSet st.heap ref (fun i => { i with stopped := true }),
          timers := st.timers.filter (fun t => tkill ≠ some t) },
       none)

/-! Helper lemmas. -/

/-- After filtering out every request with the given id, a registry lookup
for that id finds nothing. -/
theorem getRequest_after_erase (reqs : List PendingReq) (rid : String) :
    (reqs.filter (fun r => r.rid ≠ rid)).find? (fun r => r.rid = rid) = none := by
  rw [List.find?_eq_none]
  intro x hx
  have h := (List.mem_filter.mp hx).2
  simp only [decide_not] at h
  simpa using h

/-- A reply for an id absent from the registry leaves the state untouched
and fires no callback. -/
theorem handleReply_absent (st : LinkSt) (now : Nat) (rid : String)
    (err : Option JsErr) (data : JSVal) (h : getRequest st rid = none) :
    handleReply st now rid err data = (st, none) := by
  simp [handleReply, h]

/-- A dispatched reply erases the id from the registry of the successor
state. -/
theorem handleReply_erases (st : LinkSt) (now : Nat) (rid : String)
    (err : Option JsErr) (data : JSVal) (req : PendingReq)
    (h : getRequest st rid = some req) :
    getRequest (handleReply st now rid err data).1 rid = none := by
  have hr : (handleReply st now rid err data).1.reqs =
      st.reqs.filter (fun r => r.rid ≠ rid) := by
    simp [handleReply, h]
  simp only [getRequest, hr]
  exact getRequest_after_erase st.reqs rid

/-- C1: `handleReply(rid, err, data)` first looks up the pending request by
correlation id; with no entry it returns without invoking any callback and
without mutating registry or cache; with an entry, the entry is removed from
the registry strictly before its callback is invoked, so the callback fires
at most once — a second reply for the same id delivered re-entrantly during
(or after) callback execution finds nothing and is a silent no-op. -/
theorem c1_handleReply_at_most_once (st : LinkSt) (now : Nat) (rid : String)
    (err : Option JsErr) (data : JSVal) :
    (getRequest st rid = none → handleReply st now rid err data = (st, none)) ∧
    (∀ req, getRequest st rid = some req →
      (handleReply st now rid err data).2 = some ⟨req.rid, err, data⟩ ∧
      getRequest (handleReply st now rid err data).1 rid = none ∧
      ∀ now' err' data',
        handleReply (handleReply st now rid err data).1 now' rid err' data' =
          ((handleReply st now rid err data).1, none)) := by
  constructor
  · exact fun h => handleReply_absent st now rid err data h
  · intro req h
    refine ⟨by simp [handleReply, h], handleReply_erases st now rid err data req h, ?_⟩
    intro now' err' data'
    exact handleReply_absent _ now' rid err' data'
      (handleReply_erases st now rid err data req h)

/-- C1 witness: on a registry holding the single request `r1`, the reply for
`r1` fires its callback, and an immediately re-entrant second reply for `r1`
is a silent no-op. -/
theorem c1_witness :
    (handleReply ⟨[⟨"r1", "lookup", .str "k", "q1"⟩], []⟩ 0 "r1" none
        (.arr [.str "a"])).2 = some ⟨"r1", none, .arr [.str "a"]⟩ ∧
    handleReply (handleReply ⟨[⟨"r1", "lookup", .str "k", "q1"⟩], []⟩ 0 "r1" none
        (.arr [.str "a"])).1 1 "r1" none (.arr [.str "a"]) =
      ((handleReply ⟨[⟨"r1", "lookup", .str "k", "q1"⟩], []⟩ 0 "r1" none
        (.arr [.str "a"])).1, none) := by
  have h := (c1_handleReply_at_most_once ⟨[⟨"r1", "lookup", .str "k", "q1"⟩], []⟩
    0 "r1" none (.arr [.str "a"])).2 ⟨"r1", "lookup", .str "k", "q1"⟩ rfl
  exact ⟨h.1, h.2.2 1 none (.arr [.str "a"])⟩

/-- C2 counterexample: a reply whose data is the empty array is an empty
sequence, yet `handleReply` caches it — `[]` is truthy in JavaScript, so the
guard `!err && data` does not exclude it.  On a registry holding the lookup
request `r1` with fingerprint `q1` and an empty cache, the error-free reply
`[]` leaves the cache holding `[]` under `q1`, refuting "no cache write
happens … for a reply whose data is an empty sequence". -/
theorem c2_counterexample :
    (handleReply ⟨[⟨"r1", "lookup", .str "k", "q1"⟩], []⟩ 7 "r1" none
        (.arr [])).1.lookupCache = [⟨"q1", .arr [], 7⟩] := rfl

/-- C2 amended: for every reply handled by `handleReply`, the result cache
for the request's type is written at the request's fingerprint if and only
if the reply carries no error, its data is truthy in the JavaScript sense,
and the type is cache-eligible (only `lookup`); no write happens for an
error reply or for falsy data (`null`/`undefined`, `false`, `0`, the empty
string), but an empty array is truthy and is written. -/
theorem c2_cache_write_iff_truthy (st : LinkSt) (now : Nat) (rid : String)
    (err : Option JsErr) (data : JSVal) (req : PendingReq)
    (h : getRequest st rid = some req) :
    ((err.isNone ∧ data.truthy ∧ req.type = "lookup") →
      (handleReply st now rid err data).1.lookupCache.find?
          (fun e => e.key = req.qhash) = some ⟨req.qhash, data, now⟩) ∧
    (¬ (err.isNone ∧ data.truthy ∧ req.type = "lookup") →
      (handleReply st now rid err data).1.lookupCache = st.lookupCache) := by
  constructor
  · intro hc
    simp [handleReply, h, hc, lruSet]
  · intro hc
    have hcase : (handleReply st now rid err data).1.lookupCache =
        if err.isNone ∧ data.truthy ∧ req.type = "lookup" then
          lruSet st.lookupCache now req.qhash data
        else st.lookupCache := by
      simp only [handleReply, h]
    rw [hcase, if_neg hc]

/-- C2 witness: an error-free reply with non-empty array data for a pending
lookup request lands in the cache under the request's fingerprint, and an
error reply leaves the cache untouched. -/
theorem c2_witness :
    (handleReply ⟨[⟨"r1", "lookup", .str "k", "q1"⟩], []⟩ 3 "r1" none
        (.arr [.str "a"])).1.lookupCache.find? (fun e => e.key = "q1") =
      some ⟨"q1", .arr [.str "a"], 3⟩ ∧
    (handleReply ⟨[⟨"r1", "lookup", .str "k", "q1"⟩], []⟩ 3 "r1"
        (some ⟨"boom", .null⟩) (.arr [.str "a"])).1.lookupCache = [] := by
  refine ⟨(c2_cache_write_iff_truthy ⟨[⟨"r1", "lookup", .str "k", "q1"⟩], []⟩ 3 "r1"
      none (.arr [.str "a"]) ⟨"r1", "lookup", .str "k", "q1"⟩ rfl).1
      ⟨rfl, rfl, rfl⟩, ?_⟩
  exact (c2_cache_write_iff_truthy ⟨[⟨"r1", "lookup", .str "k", "q1"⟩], []⟩ 3 "r1"
      (some ⟨"boom", .null⟩) (.arr [.str "a"]) ⟨"r1", "lookup", .str "k", "q1"⟩ rfl).2
      (fun hc => by simp at hc)

/-- Mutation through a reference changes exactly that descriptor: reading
the mutated reference sees the updated descriptor. -/
theorem heapGet_heapSet_same (h : List (Nat × AnnInfo)) (r : Nat)
    (f : AnnInfo → AnnInfo) :
    heapGet (heapSet h r f) r = (heapGet h r).map f := by
  induction h with
  | nil => rfl
  | cons p t ih =>
      by_cases hp : p.1 = r
      · simp [heapGet, heapSet, List.find?_cons, hp]
      · simp only [heapSet, List.map_cons] at *
        simp only [if_neg hp]
        simp [heapGet, List.find?_cons, hp] at ih ⊢
        exact ih

/-- C4: `startAnnouncing(key, port)` while a descriptor for the identity key
`port + ':' + key` is live returns `false`, creates no descriptor, starts no
timer, and leaves the whole scheduler state — including the existing
schedule — unaltered. -/
theorem c4_duplicate_start_noop (st : AnnSt) (key port : String)
    (h : (st.announces.find? (fun p => p.1 = annId key port)).isSome) :
    startAnnouncing st key port = (st, some false) := by
  simp [startAnnouncing, h]

/-- C4 witness: starting the pair `(foo, 1337)` while a descriptor for
`1337:foo` is live is rejected without any state change. -/
theorem c4_witness :
    startAnnouncing ⟨[("1337:foo", 0)], [(0, ⟨false, none⟩)], [], [0], 1, 0⟩
        "foo" "1337" =
      (⟨[("1337:foo", 0)], [(0, ⟨false, none⟩)], [], [0], 1, 0⟩, some false) :=
  c4_duplicate_start_noop ⟨[("1337:foo", 0)], [(0, ⟨false, none⟩)], [], [0], 1, 0⟩
    "foo" "1337" (by decide)

/-- C3: once `stopAnnouncing(key, port)` has returned on a live pair, the
descriptor's `stopped` flag is set, the pending timer (if any) has been
cancelled synchronously — it is no longer in the live timer set — and the
completion handler `reann` of an announce attempt that was in flight at stop
time observes `stopped = true` and schedules nothing: it allocates no timer,
leaves the live timer set and every descriptor unchanged, and only retires
the in-flight attempt. -/
theorem c3_stop_cancels_and_inflight_schedules_nothing (st : AnnSt)
    (key port : String) (pr : String × Nat) (info : AnnInfo)
    (ha : st.announces.find? (fun p => p.1 = annId key port) = some pr)
    (hh : heapGet st.heap pr.2 = some info) :
    heapGet (stopAnnouncing st key port).1.heap pr.2 = some ⟨true, info.timeout⟩ ∧
    (∀ t, info.timeout = some t → t ∉ (stopAnnouncing st key port).1.timers) ∧
    (reann (stopAnnouncing st key port).1 pr.2 =
      { (stopAnnouncing st key port).1 with
          inflight := (stopAnnouncing st key port).1.inflight.filter
            (fun r => r ≠ pr.2) }) := by
  have hst : (stopAnnouncing st key port).1 =
      { st with
          announces := st.announces.filter (fun q => q.1 ≠ annId key port),
          heap := heapSet st.heap pr.2 (fun i => { i with stopped := true }),
          timers := st.timers.filter (fun t => info.timeout ≠ some t) } := by
    simp [stopAnnouncing, ha, hh]
  have hget : heapGet (stopAnnouncing st key port).1.heap pr.2 =
      some ⟨true, info.timeout⟩ := by
    rw [hst]
    simp [heapGet_heapSet_same, hh]
  refine ⟨hget, ?_, ?_⟩
  · intro t ht hmem
    rw [hst] at hmem
    simp only [List.mem_filter] at hmem
    simp [ht] at hmem
  · simp [reann, hget]

/-- C3 witness: stopping the live pair `(foo, 1337)` whose descriptor has
the pending timer `5` and one in-flight attempt sets the stop flag, removes
timer `5` from the live set, and the in-flight completion handler schedules
nothing afterwards. -/
theorem c3_witness :
    heapGet (stopAnnouncing ⟨[("1337:foo", 0)], [(0, ⟨false, some 5⟩)], [5], [0], 1, 6⟩
        "foo" "1337").1.heap 0 = some ⟨true, some 5⟩ ∧
    5 ∉ (stopAnnouncing ⟨[("1337:foo", 0)], [(0, ⟨false, some 5⟩)], [5], [0], 1, 6⟩
        "foo" "1337").1.timers ∧
    (reann (stopAnnouncing ⟨[("1337:foo", 0)], [(0, ⟨false, some 5⟩)], [5], [0], 1, 6⟩
        "foo" "1337").1 0).timers =
      (stopAnnouncing ⟨[("1337:foo", 0)], [(0, ⟨false, some 5⟩)], [5], [0], 1, 6⟩
        "foo" "1337").1.timers := by
  have h := c3_stop_cancels_and_inflight_schedules_nothing
    ⟨[("1337:foo", 0)], [(0, ⟨false, some 5⟩)], [5], [0], 1, 6⟩ "foo" "1337"
    ("1337:foo", 0) ⟨false, some 5⟩ rfl rfl
  exact ⟨h.1, h.2.1 5 rfl, by rw [h.2.2]⟩

/-- When the attempts with indices `i, …, i + m - 1` all fail, the retry
loop performs exactly `m` invocations and delivers the last attempt's
result. -/
theorem retryFrom_all_fail (f : Nat → Except JsErr JSVal) :
    ∀ (m i : Nat), 1 ≤ m →
      (∀ j, j < m → resultIsOk (f (i + j)) = false) →
      retryFrom f i m = (f (i + (m - 1)), m) := by
  intro m
  induction m with
  | zero => intro i hm _; omega
  | succ n ih =>
      intro i _ h
      cases n with
      | zero => simp [retryFrom]
      | succ k =>
          have h0 : resultIsOk (f i) = false := by simpa using h 0 (by omega)
          cases hf : f i with
          | ok a => rw [hf] at h0; simp [resultIsOk] at h0
          | error e =>
              have hrec := ih (i + 1) (by omega) (fun j hj => by
                have hs := h (j + 1) (by omega)
                have hij : i + (j + 1) = i + 1 + j := by omega
                rwa [hij] at hs)
              have harith : i + 1 + (k + 1 - 1) = i + (k + 1 + 1 - 1) := by omega
              simp only [retryFrom, hf, hrec, harith]

/-- When the attempts with indices `i, …, i + k - 1` fail and attempt
`i + k` (still within the budget) succeeds, the retry loop stops there: it
performs exactly `k + 1` invocations and delivers that attempt's result. -/
theorem retryFrom_first_ok (f : Nat → Except JsErr JSVal) :
    ∀ (m k i : Nat), k < m →
      (∀ j, j < k → resultIsOk (f (i + j)) = false) →
      resultIsOk (f (i + k)) = true →
      retryFrom f i m = (f (i + k), k + 1) := by
  intro m
  induction m with
  | zero => intro k i hk _ _; omega
  | succ n ih =>
      intro k i hk hfail hok
      cases n with
      | zero =>
          have hk0 : k = 0 := by omega
          subst hk0
          simp [retryFrom]
      | succ q =>
          cases k with
          | zero =>
              rw [Nat.add_zero] at hok
              cases hf : f i with
              | error e => rw [hf] at hok; simp [resultIsOk] at hok
              | ok a => simp [retryFrom, hf]
          | succ w =>
              have h0 : resultIsOk (f i) = false := by simpa using hfail 0 (by omega)
              cases hf : f i with
              | ok a => rw [hf] at h0; simp [resultIsOk] at h0
              | error e =>
                  have hrec := ih w (i + 1) (by omega)
                    (fun j hj => by
                      have hs := hfail (j + 1) (by omega)
                      have hij : i + (j + 1) = i + 1 + j := by omega
                      rwa [hij] at hs)
                    (by
                      have hik : i + (w + 1) = i + 1 + w := by omega
                      rwa [hik] at hok)
                  have harith : i + 1 + w = i + (w + 1) := by omega
                  simp only [retryFrom, hf, hrec, harith]

/-- C5: for every `maxAttempts ≥ 1` and every attempt function, the retry
wrapper `request` places around `_request` runs the attempts sequentially
(in the model the attempt with index `i` can only run after attempts
`0, …, i - 1` have completed), performs at most `maxAttempts` invocations,
stops at the first successful attempt delivering that attempt's result, and
when every attempt in the budget fails it performs exactly `maxAttempts`
invocations and delivers the last attempt's error. -/
theorem c5_retry_contract (f : Nat → Except JsErr JSVal) (m : Nat) (hm : 1 ≤ m) :
    ((∀ j, j < m → resultIsOk (f j) = false) → retry m f = (f (m - 1), m)) ∧
    (∀ k, k < m → (∀ j, j < k → resultIsOk (f j) = false) →
      resultIsOk (f k) = true → retry m f = (f k, k + 1)) := by
  constructor
  · intro h
    have hr := retryFrom_all_fail f m 0 hm (fun j hj => by simpa using h j hj)
    simpa using hr
  · intro k hk hfail hok
    have hr := retryFrom_first_ok f m k 0 hk
      (fun j hj => by simpa using hfail j hj) (by simpa using hok)
    simpa using hr

/-- C5 witness: an attempt function that fails twice and then succeeds.
With `maxAttempts = 3` the call succeeds with the third attempt's result
after exactly three invocations; with `maxAttempts = 2` it fails with the
second attempt's error after exactly two invocations. -/
theorem c5_witness :
    retry 3 (fun i => if i < 2 then .error ⟨"E", .num i⟩ else .ok (.str "peer")) =
      (.ok (.str "peer"), 3) ∧
    retry 2 (fun i => if i < 2 then .error ⟨"E", .num i⟩ else .ok (.str "peer")) =
      (.error ⟨"E", .num 1⟩, 2) := by
  constructor
  · exact (c5_retry_contract
      (fun i => if i < 2 then .error ⟨"E", .num i⟩ else .ok (.str "peer")) 3
      (by omega)).2 2 (by omega)
      (fun j hj => by interval_cases j <;> rfl) rfl
  · exact (c5_retry_contract
      (fun i => if i < 2 then .error ⟨"E", .num i⟩ else .ok (.str "peer")) 2
      (by omega)).1 (fun j hj => by interval_cases j <;> rfl)

/-- The cache region a dispatched reply leaves behind, as a function of the
write condition. -/
theorem handleReply_cache (st : LinkSt) (now : Nat) (rid : String)
    (err : Option JsErr) (data : JSVal) (req : PendingReq)
    (h : getRequest st rid = some req) :
    (handleReply st now rid err data).1.lookupCache =
      if err.isNone ∧ data.truthy ∧ req.type = "lookup" then
        lruSet st.lookupCache now req.qhash data
      else st.lookupCache := by
  simp only [handleReply, h]

/-- An attempt that finds a live, truthy cache entry under its fingerprint
returns it at once and leaves the state untouched. -/
theorem underscoreRequest_cache_hit (st : LinkSt) (now maxAge : Nat)
    (rid : String) (payload cval : JSVal)
    (hget : lruGet st.lookupCache now maxAge (getRequestHash "lookup" payload) =
      some cval)
    (htr : cval.truthy) :
    underscoreRequest st now maxAge rid "lookup" payload = (st, .cachedHit cval) := by
  simp [underscoreRequest, hget, htr]

/-- A value written to the cache at time `now` is still returned at any
later time within the age bound. -/
theorem lruGet_lruSet_live (cache : List CacheEntry) (now later maxAge : Nat)
    (k : String) (v : JSVal) (_h1 : now ≤ later) (h2 : later - now ≤ maxAge) :
    lruGet (lruSet cache now k v) later maxAge k = some v := by
  have hfind : (lruSet cache now k v).find? (fun e => e.key = k) =
      some ⟨k, v, now⟩ := List.find?_cons_of_pos _ (by simp)
  simp only [lruGet, hfind]
  rw [if_neg (by omega)]

/-- C6: an attempt for a cache-eligible request whose fingerprint has a
live, truthy cache entry completes immediately with the cached value — the
state (registry included) is untouched and the outcome is a `cachedHit`,
not a `posted` network exchange.  Consequently two lookups with identical
payload back-to-back — a miss that gets an error-free truthy reply at `t1`,
then the same payload again at `t2` within the age bound — cause exactly
one network exchange: the first attempt posts, the second is served from
the cache. -/
theorem c6_cache_hit_no_network (maxAge : Nat) :
    (∀ (st : LinkSt) (now : Nat) (rid : String) (payload cval : JSVal),
      lruGet st.lookupCache now maxAge (getRequestHash "lookup" payload) = some cval →
      cval.truthy →
      underscoreRequest st now maxAge rid "lookup" payload = (st, .cachedHit cval)) ∧
    (∀ (st0 : LinkSt) (t0 t1 t2 : Nat) (rid1 rid2 : String) (payload data : JSVal),
      lruGet st0.lookupCache t0 maxAge (getRequestHash "lookup" payload) = none →
      data.truthy → t1 ≤ t2 → t2 - t1 ≤ maxAge →
      (underscoreRequest st0 t0 maxAge rid1 "lookup" payload).2 =
        .posted rid1 (getRequestHash "lookup" payload) ∧
      underscoreRequest
          (handleReply (underscoreRequest st0 t0 maxAge rid1 "lookup" payload).1
            t1 rid1 none data).1 t2 maxAge rid2 "lookup" payload =
        ((handleReply (underscoreRequest st0 t0 maxAge rid1 "lookup" payload).1
            t1 rid1 none data).1, .cachedHit data)) := by
  constructor
  · intro st now rid payload cval hget htr
    exact underscoreRequest_cache_hit st now maxAge rid payload cval hget htr
  · intro st0 t0 t1 t2 rid1 rid2 payload data hmiss htr h12 hage
    have hu : underscoreRequest st0 t0 maxAge rid1 "lookup" payload =
        sendRequest st0 rid1 "lookup" payload (getRequestHash "lookup" payload) := by
      simp [underscoreRequest, hmiss]
    refine ⟨by rw [hu]; rfl, ?_⟩
    have hreq : getRequest (underscoreRequest st0 t0 maxAge rid1 "lookup" payload).1
        rid1 = some ⟨rid1, "lookup", payload, getRequestHash "lookup" payload⟩ := by
      rw [hu]
      simp [getRequest, sendRequest]
    have hc : (handleReply (underscoreRequest st0 t0 maxAge rid1 "lookup" payload).1
        t1 rid1 none data).1.lookupCache =
        lruSet st0.lookupCache t1 (getRequestHash "lookup" payload) data := by
      rw [handleReply_cache _ t1 rid1 none data _ hreq,
        if_pos ⟨rfl, htr, rfl⟩, hu]
      rfl
    have hget2 : lruGet (handleReply (underscoreRequest st0 t0 maxAge rid1 "lookup"
        payload).1 t1 rid1 none data).1.lookupCache t2 maxAge
        (getRequestHash "lookup" payload) = some data := by
      rw [hc]
      exact lruGet_lruSet_live _ t1 t2 maxAge _ data h12 hage
    exact underscoreRequest_cache_hit _ t2 maxAge rid2 payload data hget2 htr

/-- C6 witness: starting from an empty cache, a lookup for `svc` posts one
network exchange, its error-free non-empty reply is cached at time 1, and
the identical lookup at time 2 (within the 10000 age bound) is served from
the cache with no registration and no exchange. -/
theorem c6_witness :
    underscoreRequest (handleReply (underscoreRequest ⟨[], []⟩ 0 10000 "r1" "lookup"
        (.str "svc")).1 1 "r1" none (.arr [.str "addr"])).1 2 10000 "r2" "lookup"
        (.str "svc") =
      ((handleReply (underscoreRequest ⟨[], []⟩ 0 10000 "r1" "lookup"
        (.str "svc")).1 1 "r1" none (.arr [.str "addr"])).1,
       .cachedHit (.arr [.str "addr"])) :=
  ((c6_cache_hit_no_network 10000).2 ⟨[], []⟩ 0 1 2 "r1" "r2" (.str "svc")
    (.arr [.str "addr"]) rfl rfl (by omega) (by omega)).2

/-- C7: for every lookup whose underlying request succeeds, a reply whose
data is not a non-empty array — the empty array included — reaches the
caller as the error `ERR_GRAPE_LOOKUP_EMPTY`, never as a success value,
while a non-empty array reaches the caller unchanged as the success value
(and an error from the underlying request passes through). -/
theorem c7_lookup_empty_handling (r : Except JsErr JSVal) :
    (∀ v, r = .ok v → ¬ isNonEmptyArr v →
      lookupHandler r = .error ⟨"ERR_GRAPE_LOOKUP_EMPTY", .null⟩) ∧
    (∀ v, r = .ok v → isNonEmptyArr v → lookupHandler r = .ok v) ∧
    (∀ e, r = .error e → lookupHandler r = .error e) := by
  refine ⟨?_, ?_, ?_⟩
  · rintro v rfl hv
    simp [lookupHandler, hv]
  · rintro v rfl hv
    simp [lookupHandler, hv]
  · rintro e rfl
    rfl

/-- C7 witness: a successful reply carrying the empty array becomes
`ERR_GRAPE_LOOKUP_EMPTY`, and one carrying a non-empty array passes through
unchanged. -/
theorem c7_witness :
    lookupHandler (.ok (.arr [])) = .error ⟨"ERR_GRAPE_LOOKUP_EMPTY", .null⟩ ∧
    lookupHandler (.ok (.arr [.str "addr"])) = .ok (.arr [.str "addr"]) :=
  ⟨(c7_lookup_empty_handling (.ok (.arr []))).1 (.arr []) rfl (by simp [isNonEmptyArr]),
   (c7_lookup_empty_handling (.ok (.arr [.str "addr"]))).2.1 (.arr [.str "addr"]) rfl rfl⟩

/-- C8: a `putMutable` call whose `data.seq` is absent (falsy) hands its
callback `ERR_MISSING_SEQ`, and one whose `options.keys` lacks `publicKey`
or `secretKey` hands its callback `ERR_MISSING_KEY`; in both cases the call
concludes before any mutation of `data`, any encoding or signing, and any
delegation towards the transport — the caller's object comes back exactly
as it went in. -/
theorem c8_putMutable_validation (data : MutData) (keys : KeyPair) :
    (¬ data.seq.truthy → putMutable data keys = (.cbError "ERR_MISSING_SEQ", data)) ∧
    (data.seq.truthy → keys.publicKey = none ∨ keys.secretKey = none →
      putMutable data keys = (.cbError "ERR_MISSING_KEY", data)) := by
  constructor
  · intro h
    simp only [putMutable, if_pos h]
  · intro hseq hkeys
    have hns : ¬ ¬ data.seq.truthy = true := fun hn => hn hseq
    rcases hkeys with hk | hk
    · cases hsk : keys.secretKey <;>
        simp only [putMutable, if_neg hns, hk, hsk]
    · cases hpk : keys.publicKey <;>
        simp only [putMutable, if_neg hns, hk, hpk]

/-- C8 witness: a call with `seq` absent fails with `ERR_MISSING_SEQ`, and a
call with `seq` present but no `publicKey` fails with `ERR_MISSING_KEY`;
neither mutates the data or proceeds further. -/
theorem c8_witness :
    putMutable ⟨.null, .str "v", .null, none, none⟩ ⟨some [1], some [2]⟩ =
      (.cbError "ERR_MISSING_SEQ", ⟨.null, .str "v", .null, none, none⟩) ∧
    putMutable ⟨.num 1, .str "v", .null, none, none⟩ ⟨none, some [2]⟩ =
      (.cbError "ERR_MISSING_KEY", ⟨.num 1, .str "v", .null, none, none⟩) :=
  ⟨(c8_putMutable_validation ⟨.null, .str "v", .null, none, none⟩
      ⟨some [1], some [2]⟩).1 (by simp [JSVal.truthy]),
   (c8_putMutable_validation ⟨.num 1, .str "v", .null, none, none⟩
      ⟨none, some [2]⟩).2 rfl (Or.inl rfl)⟩

/-- C9: evaluation of `post`'s response handler on a timeout.  When a
response object happens to be present, the callback does receive an error
whose message is `ERR_TIMEOUT` with the response status as its code; but in
the usual timeout shape — the transport reports `ETIMEDOUT` with no
response object — the handler throws a `TypeError` on `res.statusCode`
instead of ever invoking the callback, contradicting the claim that the
callback never throws in the timeout case. -/
theorem c9_timeout_throws_without_response :
    postHandler (some ⟨"connect ETIMEDOUT", .str "ETIMEDOUT"⟩) none .null =
      .thrown "TypeError: Cannot read properties of undefined (reading statusCode)" ∧
    postHandler (some ⟨"connect ETIMEDOUT", .str "ETIMEDOUT"⟩) (some ⟨503⟩) .null =
      .cb (some ⟨"ERR_TIMEOUT", .num 503⟩) none .null :=
  ⟨rfl, rfl⟩

/-- C10: evaluation of `putMutable` past validation.  The caller's `data` is
mutated in place — `k` becomes the hex public key — but `sig` is never
assigned and `put` is never reached: the identifier `ed` is not bound
anywhere in `src/index.js`, so evaluating `ed.sign` raises
`ReferenceError: ed is not defined` and every call that passes validation
throws instead of delegating the signed payload to `put`. -/
theorem c10_putMutable_never_reaches_put :
    putMutable ⟨.num 1, .str "hello", .null, none, none⟩ ⟨some [1, 2], some [3, 4]⟩ =
      (.thrownRefError "ed is not defined",
       ⟨.num 1, .str "hello", .null, some "0102", none⟩) := rfl

end Link
